import Mathlib

/-!
Verification development for the VibeHunt backend (src/main.py).

The embedding models the document store as three in-memory collections
(posts, votes, comments) and translates the route handlers `list_posts`,
`get_post`, `vote_post`, `add_comment` and `create_post` into pure
functions threading the store state explicitly.  HTTP errors raised via
`HTTPException` become values of the `Err` type; an unhandled Python
exception (a `TypeError` escaping the handler, surfaced as HTTP 500) is
modelled by `Err.typeError`.  Timestamps are integers (seconds); the
Mongo sort is modelled as a stable insertion sort on the sort key, in
descending order, as `find(...).sort([(field, -1)])` does.
-/

namespace VibeHunt

/-- A stored post document (collection "post").  The `id` field is the
string form of the Mongo `_id`; `votes_count` and `comments_count` are the
denormalized counters kept on the document. -/
structure Post where
  id : String
  title : String
  description : String
  url : Option String
  votes_count : Int
  comments_count : Nat
  created_at : Int
  updated_at : Int
deriving DecidableEq

/-- A vote ledger entry (collection "vote"): one per (post, identity)
pair, where the identity is the client IP.  `post_id` is stored as the
raw string path parameter, as in `vote_post`. -/
structure Vote where
  post_id : String
  ip : String
  created_at : Int
deriving DecidableEq

/-- A comment document (collection "comment"). -/
structure Comment where
  id : String
  post_id : String
  author : Option String
  content : String
  parent_id : Option String
  created_at : Int
deriving DecidableEq

/-- The document store: the three collections used by the handlers. -/
structure Store where
  posts : List Post
  votes : List Vote
  comments : List Comment
deriving DecidableEq

/-- Errors surfaced by the handlers.  `invalidId` is the HTTP 400
"Invalid id" raised by `to_object_id`; `notFound` the 404 "Post not
found"; `invalidParent` the 400 "Invalid parent comment";
`serviceUnavailable` the 503 raised when the store handle is absent;
`typeError` models an unhandled Python `TypeError` escaping the handler
(HTTP 500). -/
inductive Err where
  | serviceUnavailable
  | invalidId
  | notFound
  | invalidParent
  | typeError
deriving DecidableEq

inductive TimeRange where
  | week
  | month
  | all
deriving DecidableEq

inductive SortBy where
  | votes
  | comments
  | recent
deriving DecidableEq

/-- A serialized post as returned by `list_posts` and `get_post`: the
document fields plus the per-identity `voted` flag; its `comments_count`
is the live count, overwriting the stored field. -/
structure FeedItem where
  id : String
  title : String
  description : String
  url : Option String
  votes_count : Int
  comments_count : Nat
  voted : Bool
  created_at : Int
  updated_at : Int
deriving DecidableEq

/-- The payload of `GET /api/posts`. -/
structure FeedPage where
  items : List FeedItem
  total : Nat
  page : Nat
  page_size : Nat
deriving DecidableEq

/-- The payload of a successful `vote_post`: the stored post document,
the `voted` flag, the `status` string and the live comment count that
overwrites the stored `comments_count` in the response. -/
structure VoteItem where
  post : Post
  voted : Bool
  status : String
  comments_count : Nat
deriving DecidableEq

/-- `bson.ObjectId` accepts exactly 24 hexadecimal characters when given
a string. -/
def isValidObjectId (s : String) : Bool :=
  s.length == 24 && s.toList.all fun c =>
    c.isDigit || (Char.ofNat 97 ≤ c && c ≤ Char.ofNat 102)
      || (Char.ofNat 65 ≤ c && c ≤ Char.ofNat 70)

/-- `to_object_id` (src/main.py lines 23-27): parse the id or raise
HTTP 400 "Invalid id". -/
def to_object_id (id_str : String) : Except Err String :=
  if isValidObjectId id_str then .ok id_str else .error .invalidId

/-- The filter of `find_one({"ip": ip, "post_id": post_id})` on the vote
collection. -/
def votePred (post_id ip : String) (v : Vote) : Bool :=
  v.ip == ip && v.post_id == post_id

/-- `find_one({"_id": oid})` on the post collection. -/
def findPost (s : Store) (post_id : String) : Option Post :=
  s.posts.find? fun q => q.id == post_id

/-- `delete_one` by the `_id` of the first document matching `p`. -/
def removeFirst (p : α → Bool) : List α → List α
  | [] => []
  | x :: xs => if p x then xs else x :: removeFirst p xs

/-- `update_one({"_id": oid}, ...)`: apply `f` to the first post whose
id matches (at most one in Mongo, `_id` being unique); a no-op when no
document matches. -/
def updateFirstPost (post_id : String) (f : Post → Post) : List Post → List Post
  | [] => []
  | q :: qs => if q.id == post_id then f q :: qs else q :: updateFirstPost post_id f qs

/-- `count_documents({"post_id": post_id})` on the comment collection:
the live comment count. -/
def liveCommentCount (s : Store) (post_id : String) : Nat :=
  (s.comments.filter fun c => c.post_id == post_id).length

/-- Does the vote ledger contain an entry for (post, identity)? -/
def hasVote (s : Store) (post_id ip : String) : Bool :=
  s.votes.any (votePred post_id ip)

/-- The time-range filter built at src/main.py lines 233-238:
`created_at >= now - 7d` for week, `>= now - 30d` for month, no filter
for all (86400 seconds per day). -/
def matchesRange (tr : TimeRange) (now : Int) (p : Post) : Bool :=
  match tr with
  | .week => decide (now - 7 * 86400 ≤ p.created_at)
  | .month => decide (now - 30 * 86400 ≤ p.created_at)
  | .all => true

/-- The sort key of src/main.py lines 240-244: stored `votes_count`,
stored `comments_count`, or `created_at`. -/
def sortKey (sb : SortBy) (p : Post) : Int :=
  match sb with
  | .votes => p.votes_count
  | .comments => (p.comments_count : Int)
  | .recent => p.created_at

/-- Insert `x` into a descending-sorted list, before the first element
with a strictly smaller key (so the sort below is stable). -/
def insertDesc (key : α → Int) (x : α) : List α → List α
  | [] => [x]
  | y :: ys => if key y ≤ key x then x :: y :: ys else y :: insertDesc key x ys

/-- Stable descending sort on `key`, modelling `.sort([(field, -1)])`. -/
def sortDescBy (key : α → Int) : List α → List α
  | [] => []
  | x :: xs => insertDesc key x (sortDescBy key xs)

/-- Serialize a post document for the feed / single-post payloads:
join in the `voted` flag for this identity and overwrite
`comments_count` with the live count (src/main.py lines 252-269). -/
def toItem (s : Store) (ip : String) (p : Post) : FeedItem :=
  { id := p.id, title := p.title, description := p.description, url := p.url
    votes_count := p.votes_count
    comments_count := liveCommentCount s p.id
    voted := s.votes.any (votePred p.id ip)
    created_at := p.created_at, updated_at := p.updated_at }

/-- SAMPLE_POSTS (src/main.py lines 58-81), the read-only fallback
served when the store handle is absent.  In the source their timestamps
are frozen at process start; the model takes the clock as a parameter. -/
def samplePosts (now : Int) : List FeedItem :=
  [ { id := "demo-p1"
      title := "Micro-SaaS: Notion-to-SOP Generator"
      description := "Turn messy Notion pages into step-by-step SOPs with AI. Export to PDF, share links, and track views."
      url := some "https://vibehunt.dev/notion-sop"
      votes_count := 7, comments_count := 3, voted := false
      created_at := now - 26 * 3600, updated_at := now - 26 * 3600 },
    { id := "demo-p2"
      title := "Cold DM Personalizer for X/LinkedIn"
      description := "Paste a lead list, get hyper-personalized DMs with tone presets. Auto A/B test openers."
      url := some "https://vibehunt.dev/dm-personalizer"
      votes_count := 4, comments_count := 3, voted := false
      created_at := now - 10 * 3600, updated_at := now - 10 * 3600 } ]

/-- `POST /api/posts` (src/main.py lines 202-216).  `newId` is the fresh
`_id` assigned by the store on insertion. -/
def create_post (s : Store) (dbAvail : Bool) (title description : String)
    (url : Option String) (now : Int) (newId : String) : Except Err Post × Store :=
  if dbAvail then
    let doc : Post :=
      { id := newId, title := title, description := description, url := url
        votes_count := 0, comments_count := 0, created_at := now, updated_at := now }
    (.ok doc, { s with posts := s.posts ++ [doc] })
  else (.error .serviceUnavailable, s)

/-- `GET /api/posts` (src/main.py lines 219-271).  With the store absent
it serves the two sample posts with `total = len(items)`, `page = 1` and
`page_size = total`, ignoring every parameter; otherwise it filters by
time range, sorts descending on the stored sort key, pages with
`skip = (page - 1) * page_size`, and joins in `voted` and the live
comment counts, with `total` counted over the filter alone. -/
def list_posts (s : Store) (dbAvail : Bool) (tr : TimeRange) (sb : SortBy)
    (page page_size : Nat) (now : Int) (ip : String) : FeedPage :=
  if dbAvail then
    let matching := s.posts.filter (matchesRange tr now)
    let sorted := sortDescBy (sortKey sb) matching
    let pageItems := (sorted.drop ((page - 1) * page_size)).take page_size
    { items := pageItems.map (toItem s ip)
      total := matching.length, page := page, page_size := page_size }
  else
    { items := samplePosts now
      total := (samplePosts now).length
      page := 1
      page_size := (samplePosts now).length }

/-- `GET /api/posts/{post_id}` (src/main.py lines 274-290). -/
def get_post (s : Store) (dbAvail : Bool) (post_id ip : String) (now : Int) :
    Except Err FeedItem :=
  if dbAvail then
    match to_object_id post_id with
    | .error e => .error e
    | .ok _ =>
      match findPost s post_id with
      | none => .error .notFound
      | some p => .ok (toItem s ip p)
  else
    match (samplePosts now).find? (fun it => it.id == post_id) with
    | none => .error .notFound
    | some it => .ok it

/-- The counter mutation of the cast-vote branch (src/main.py line 316). -/
def voteInc (now : Int) (q : Post) : Post :=
  { q with votes_count := q.votes_count + 1, updated_at := now }

/-- The counter mutation of the unvote branch (src/main.py line 310). -/
def voteDec (now : Int) (q : Post) : Post :=
  { q with votes_count := q.votes_count - 1, updated_at := now }

/-- The tail of `vote_post` (src/main.py lines 320-326): re-read the
post, serialize it, attach `voted`, `status` and the live comment count.
When the post does not exist, `serialize(None)` returns `None` and the
assignment `item["voted"] = voted` raises a `TypeError` (HTTP 500). -/
def voteFinish (s : Store) (post_id : String) (voted : Bool) (status : String) :
    Except Err VoteItem × Store :=
  match findPost s post_id with
  | none => (.error .typeError, s)
  | some doc =>
    (.ok { post := doc, voted := voted, status := status
           comments_count := liveCommentCount s post_id }, s)

/-- `POST /api/posts/{post_id}/vote` (src/main.py lines 293-326): toggle
the vote of this identity on this post.  Note the ledger mutation
happens before `to_object_id` is first called on `post_id`, so it
persists even when the id fails to parse. -/
def vote_post (s : Store) (dbAvail : Bool) (post_id ip : String) (now : Int) :
    Except Err VoteItem × Store :=
  if dbAvail then
    match s.votes.find? (votePred post_id ip) with
    | some _ =>
      let s1 : Store := { s with votes := removeFirst (votePred post_id ip) s.votes }
      match to_object_id post_id with
      | .error e => (.error e, s1)
      | .ok _ =>
        let s2 : Store := { s1 with posts := updateFirstPost post_id (voteDec now) s1.posts }
        voteFinish s2 post_id false "unvoted"
    | none =>
      let s1 : Store := { s with votes := s.votes ++ [{ post_id := post_id, ip := ip, created_at := now }] }
      match to_object_id post_id with
      | .error e => (.error e, s1)
      | .ok _ =>
        let s2 : Store := { s1 with posts := updateFirstPost post_id (voteInc now) s1.posts }
        voteFinish s2 post_id true "voted"
  else (.error .serviceUnavailable, s)

/-- The comment document built by `add_comment` (src/main.py lines
341-347), with `newId` the fresh store-assigned id. -/
def newComment (post_id : String) (author : Option String) (content : String)
    (parent_id : Option String) (now : Int) (newId : String) : Comment :=
  { id := newId, post_id := post_id, author := author, content := content
    parent_id := parent_id, created_at := now }

/-- The insertion tail of `add_comment` (src/main.py lines 341-352): the
comment document (with the original `parent_id` value) is inserted
before `to_object_id(post_id)` is called for the `updated_at` refresh,
so the insert persists even when the post id fails to parse. -/
def addCommentInsert (s : Store) (post_id : String) (author : Option String)
    (content : String) (parent_id : Option String) (now : Int) (newId : String) :
    Except Err Unit × Store :=
  let c : Comment := newComment post_id author content parent_id now newId
  let s1 : Store := { s with comments := s.comments ++ [c] }
  match to_object_id post_id with
  | .error e => (.error e, s1)
  | .ok _ =>
    (.ok (), { s1 with posts := updateFirstPost post_id (fun q => { q with updated_at := now }) s1.posts })

/-- `POST /api/posts/{post_id}/comments` (src/main.py lines 329-352).
The parent check runs only when `parent_id` is truthy in Python, so an
empty string skips it; a present, non-empty parent id is parsed (HTTP
400 "Invalid id" on failure), then must name an existing comment of the
same post (HTTP 400 "Invalid parent comment" otherwise). -/
def add_comment (s : Store) (dbAvail : Bool) (post_id : String) (author : Option String)
    (content : String) (parent_id : Option String) (now : Int) (newId : String) :
    Except Err Unit × Store :=
  if dbAvail then
    match parent_id with
    | none => addCommentInsert s post_id author content none now newId
    | some par =>
      if par == "" then addCommentInsert s post_id author content (some par) now newId
      else
        match to_object_id par with
        | .error e => (.error e, s)
        | .ok _ =>
          match s.comments.find? (fun c => c.id == par) with
          | none => (.error .invalidParent, s)
          | some parent =>
            if parent.post_id == post_id then
              addCommentInsert s post_id author content (some par) now newId
            else (.error .invalidParent, s)
  else (.error .serviceUnavailable, s)

/-- The status string of a toggle call; errors are folded to "error". -/
def statusOf : Except Err VoteItem → String
  | .ok it => it.status
  | .error _ => "error"

/-- The store after `n` consecutive toggle calls by `ip` on `post_id`. -/
def toggleN (post_id ip : String) (now : Int) : Nat → Store → Store
  | 0, s => s
  | Nat.succ n, s => toggleN post_id ip now n (vote_post s true post_id ip now).2

/-- The statuses returned by `n` consecutive toggle calls, in order. -/
def toggleResults (post_id ip : String) (now : Int) : Nat → Store → List String
  | 0, _ => []
  | Nat.succ n, s =>
    statusOf (vote_post s true post_id ip now).1 ::
      toggleResults post_id ip now n (vote_post s true post_id ip now).2

/-- Expected status of the k-th call (0-based) when the pair starts in
state voted (`b = true`) or unvoted (`b = false`). -/
def statusPat (b : Bool) (k : Nat) : String :=
  if ((k % 2 == 0) ^^ b) then "voted" else "unvoted"

/-- A concrete post used by several witnesses. -/
def demoPost : Post :=
  { id := "aaaaaaaaaaaaaaaaaaaaaaaa", title := "Widget", description := "A demo post"
    url := none, votes_count := 0, comments_count := 0, created_at := 0, updated_at := 0 }

/-- A store holding just `demoPost`. -/
def demoStoreC1 : Store := { posts := [demoPost], votes := [], comments := [] }

/-- A comment on a different post, used by the C3 witness. -/
def demoComment : Comment :=
  { id := "dddddddddddddddddddddddd", post_id := "cccccccccccccccccccccccc"
    author := none, content := "hello", parent_id := none, created_at := 0 }

/-- A store whose single comment belongs to a post other than demoPost. -/
def demoStoreC3 : Store := { posts := [demoPost], votes := [], comments := [demoComment] }

/-- A 25-post store for the C4 witness. -/
def storeC4 : Store := { posts := List.replicate 25 demoPost, votes := [], comments := [] }

/-- A post created ten days before the clock value 0. -/
def tenDayPost : Post :=
  { id := "eeeeeeeeeeeeeeeeeeeeeeee", title := "Old", description := "Ten days old"
    url := none, votes_count := 0, comments_count := 0
    created_at := -864000, updated_at := -864000 }

/-- A store holding just `tenDayPost`. -/
def storeC5 : Store := { posts := [tenDayPost], votes := [], comments := [] }

/-- Post with a stale stored comment count of 5 and no actual comments. -/
def postA : Post :=
  { id := "a", title := "A", description := "first", url := none
    votes_count := 0, comments_count := 5, created_at := 0, updated_at := 0 }

/-- Post with a stored comment count of 0 but one actual comment. -/
def postB : Post :=
  { id := "b", title := "B", description := "second", url := none
    votes_count := 0, comments_count := 0, created_at := 0, updated_at := 0 }

/-- The single live comment, attached to postB. -/
def commentB : Comment :=
  { id := "x", post_id := "b", author := none, content := "c"
    parent_id := none, created_at := 0 }

/-- A store where stored and live comment counts disagree. -/
def storeC6 : Store := { posts := [postA, postB], votes := [], comments := [commentB] }

/-- Does a (possibly failed) single-post read report the live comment
count of the requested post? Errors count as vacuously fine. -/
def okLiveCount (r : Except Err FeedItem) (s : Store) (pid : String) : Bool :=
  match r with
  | .ok it => it.comments_count == liveCommentCount s pid
  | .error _ => true

/-! General lemmas about the store helpers. -/

lemma removeFirst_append_of_none {p : α → Bool} {l₁ : List α} (l₂ : List α)
    (h : l₁.find? p = none) : removeFirst p (l₁ ++ l₂) = l₁ ++ removeFirst p l₂ := by
  induction l₁ with
  | nil => simp [removeFirst]
  | cons x xs ih =>
    rw [List.find?_cons] at h
    cases hx : p x with
    | true => simp [hx] at h
    | false =>
      simp only [hx] at h
      simp [removeFirst, hx, ih h]

lemma removeFirst_cons_of_pos {p : α → Bool} {x : α} (xs : List α) (h : p x = true) :
    removeFirst p (x :: xs) = xs := by
  simp [removeFirst, h]

lemma filter_not_removeFirst (p : α → Bool) (l : List α) :
    (removeFirst p l).filter (fun a => !(p a)) = l.filter (fun a => !(p a)) := by
  induction l with
  | nil => rfl
  | cons x xs ih =>
    cases hx : p x with
    | true => simp [removeFirst, hx, List.filter_cons]
    | false => simp [removeFirst, hx, List.filter_cons, ih]

lemma find?_updateFirstPost (post_id : String) (f : Post → Post) (L : List Post)
    (hid : ∀ q, (f q).id = q.id) :
    (updateFirstPost post_id f L).find? (fun q => q.id == post_id)
      = (L.find? (fun q => q.id == post_id)).map f := by
  induction L with
  | nil => rfl
  | cons q qs ih =>
    cases hq : (q.id == post_id) with
    | true =>
      have hfq : ((f q).id == post_id) = true := by rw [hid q]; exact hq
      simp [updateFirstPost, hq, List.find?_cons, hfq]
    | false =>
      simp [updateFirstPost, hq, List.find?_cons, ih]

lemma map_updateFirstPost (post_id : String) (f : Post → Post) (g : Post → β)
    (L : List Post) (h : ∀ q, g (f q) = g q) :
    (updateFirstPost post_id f L).map g = L.map g := by
  induction L with
  | nil => rfl
  | cons q qs ih =>
    cases hq : (q.id == post_id) with
    | true => simp [updateFirstPost, hq, h]
    | false => simp [updateFirstPost, hq, ih]

lemma length_insertDesc (key : α → Int) (x : α) (l : List α) :
    (insertDesc key x l).length = l.length + 1 := by
  induction l with
  | nil => rfl
  | cons y ys ih =>
    by_cases h : key y ≤ key x
    · simp [insertDesc, h]
    · simp [insertDesc, h, ih]

lemma length_sortDescBy (key : α → Int) (l : List α) :
    (sortDescBy key l).length = l.length := by
  induction l with
  | nil => rfl
  | cons x xs ih => simp [sortDescBy, length_insertDesc, ih]

lemma voteFinish_snd (s : Store) (post_id : String) (voted : Bool) (status : String) :
    (voteFinish s post_id voted status).2 = s := by
  unfold voteFinish
  cases findPost s post_id <;> rfl

lemma statusPat_succ (b : Bool) (k : Nat) : statusPat b (k + 1) = statusPat (!b) k := by
  unfold statusPat
  rcases Nat.mod_two_eq_zero_or_one k with h | h <;>
    cases b <;> simp [Nat.add_mod, h]

lemma succ_mod_two_beq (n : Nat) : ((n + 1) % 2 == 1) = !(n % 2 == 1) := by
  rcases Nat.mod_two_eq_zero_or_one n with h | h <;> simp [Nat.add_mod, h]

lemma statusPat_range_succ (b : Bool) (n : Nat) :
    (List.range (n + 1)).map (statusPat b)
      = statusPat b 0 :: (List.range n).map (statusPat (!b)) := by
  rw [List.range_succ_eq_map, List.map_cons, List.map_map]
  congr 1
  apply List.map_congr_left
  intro k _
  exact statusPat_succ b k

/-- Every item a feed page returns carries the live comment count of its
own post id. -/
lemma feed_items_live_counts (s : Store) (tr : TimeRange) (sb : SortBy)
    (page page_size : Nat) (now : Int) (ip : String) :
    ((list_posts s true tr sb page page_size now ip).items.all
      fun it => it.comments_count == liveCommentCount s it.id) = true := by
  rw [show (list_posts s true tr sb page page_size now ip).items
        = (((sortDescBy (sortKey sb) (s.posts.filter (matchesRange tr now))).drop
            ((page - 1) * page_size)).take page_size).map (toItem s ip) from rfl]
  rw [List.all_eq_true]
  intro it hit
  obtain ⟨p, _, rfl⟩ := List.mem_map.mp hit
  simp [toItem]

/-- One toggle call from a state with no ledger entry for (post, ip) and
the post present: it returns status "voted", appends the ledger entry and
increments the stored counter. -/
lemma vote_step_insert (s : Store) (pid ip : String) (now : Int) (q : Post)
    (hv : isValidObjectId pid = true)
    (hfind : s.votes.find? (votePred pid ip) = none)
    (hq : findPost s pid = some q) :
    statusOf (vote_post s true pid ip now).1 = "voted"
    ∧ (vote_post s true pid ip now).2
      = { s with votes := s.votes ++ [{ post_id := pid, ip := ip, created_at := now }]
                 posts := updateFirstPost pid (voteInc now) s.posts } := by
  have hto : to_object_id pid = .ok pid := by simp [to_object_id, hv]
  have hfp2 : (updateFirstPost pid (voteInc now) s.posts).find? (fun r => r.id == pid)
      = some (voteInc now q) := by
    rw [find?_updateFirstPost pid (voteInc now) s.posts (fun r => rfl)]
    rw [show s.posts.find? (fun r => r.id == pid) = some q from hq]
    rfl
  constructor
  · simp only [vote_post, hfind, hto, if_pos]
    simp [voteFinish, findPost, hfp2, statusOf]
  · simp only [vote_post, hfind, hto, if_pos]
    simp [voteFinish, findPost, hfp2]

/-- One toggle call from a state whose ledger has an entry for
(post, ip), with the post present: it returns status "unvoted", removes
the first matching ledger entry and decrements the stored counter. -/
lemma vote_step_remove (s : Store) (pid ip : String) (now : Int) (q : Post) (w : Vote)
    (hv : isValidObjectId pid = true)
    (hfind : s.votes.find? (votePred pid ip) = some w)
    (hq : findPost s pid = some q) :
    statusOf (vote_post s true pid ip now).1 = "unvoted"
    ∧ (vote_post s true pid ip now).2
      = { s with votes := removeFirst (votePred pid ip) s.votes
                 posts := updateFirstPost pid (voteDec now) s.posts } := by
  have hto : to_object_id pid = .ok pid := by simp [to_object_id, hv]
  have hfp2 : (updateFirstPost pid (voteDec now) s.posts).find? (fun r => r.id == pid)
      = some (voteDec now q) := by
    rw [find?_updateFirstPost pid (voteDec now) s.posts (fun r => rfl)]
    rw [show s.posts.find? (fun r => r.id == pid) = some q from hq]
    rfl
  constructor
  · simp only [vote_post, hfind, hto, if_pos]
    simp [voteFinish, findPost, hfp2, statusOf]
  · simp only [vote_post, hfind, hto, if_pos]
    simp [voteFinish, findPost, hfp2]

/-- The toggle run invariant: starting from a ledger that is `base` plus
(when `b`) the single entry for (post, ip), with the stored counter off
by `cond b 1 0` from its baseline, a run of `N` toggles produces the
alternating status sequence and lands with entry-presence and counter
offset given by the parity `b ^^ (N % 2 == 1)`. -/
lemma vote_toggle_run (pid ip : String) (now : Int) (base : List Vote) (p0 : Post)
    (hv : isValidObjectId pid = true)
    (hbase : base.find? (votePred pid ip) = none) :
    ∀ (N : Nat) (b : Bool) (s : Store),
      s.votes = cond b (base ++ [{ post_id := pid, ip := ip, created_at := now }]) base →
      (∃ q : Post, findPost s pid = some q
          ∧ q.votes_count = p0.votes_count + cond b 1 0) →
      toggleResults pid ip now N s = (List.range N).map (statusPat b)
      ∧ (toggleN pid ip now N s).votes
          = cond (b ^^ (N % 2 == 1))
              (base ++ [{ post_id := pid, ip := ip, created_at := now }]) base
      ∧ ∃ q : Post, findPost (toggleN pid ip now N s) pid = some q
          ∧ q.votes_count = p0.votes_count + cond (b ^^ (N % 2 == 1)) 1 0 := by
  intro N
  induction N with
  | zero =>
    intro b s hvotes hq
    refine ⟨rfl, ?_, ?_⟩
    · simpa [toggleN] using hvotes
    · simpa [toggleN] using hq
  | succ n ih =>
    intro b s hvotes hq
    obtain ⟨q, hfq, hcount⟩ := hq
    cases b with
    | false =>
      have hvs : s.votes = base := hvotes
      have hfind : s.votes.find? (votePred pid ip) = none := by rw [hvs]; exact hbase
      obtain ⟨hst, hsnd⟩ := vote_step_insert s pid ip now q hv hfind hfq
      have hv2 : ({ s with
            votes := s.votes ++ [{ post_id := pid, ip := ip, created_at := now }]
            posts := updateFirstPost pid (voteInc now) s.posts } : Store).votes
          = cond true (base ++ [{ post_id := pid, ip := ip, created_at := now }]) base := by
        show s.votes ++ _ = _
        rw [hvs]
        rfl
      have hq2 : ∃ r : Post, findPost ({ s with
            votes := s.votes ++ [{ post_id := pid, ip := ip, created_at := now }]
            posts := updateFirstPost pid (voteInc now) s.posts } : Store) pid = some r
          ∧ r.votes_count = p0.votes_count + cond true 1 0 := by
        refine ⟨voteInc now q, ?_, ?_⟩
        · show (updateFirstPost pid (voteInc now) s.posts).find? (fun r => r.id == pid) = _
          rw [find?_updateFirstPost pid (voteInc now) s.posts (fun r => rfl)]
          rw [show s.posts.find? (fun r => r.id == pid) = some q from hfq]
          rfl
        · show q.votes_count + 1 = p0.votes_count + 1
          simp at hcount
          omega
      obtain ⟨hres, hvfin, hqfin⟩ := ih true _ hv2 hq2
      have hpar : (true ^^ (n % 2 == 1)) = (false ^^ ((n + 1) % 2 == 1)) := by
        rw [succ_mod_two_beq]
        cases (n % 2 == 1) <;> rfl
      refine ⟨?_, ?_, ?_⟩
      · rw [toggleResults, hsnd, hst, hres, statusPat_range_succ]
        rfl
      · rw [toggleN, hsnd, hvfin, hpar]
      · rw [toggleN, hsnd, ← hpar]
        exact hqfin
    | true =>
      have hvs : s.votes = base ++ [{ post_id := pid, ip := ip, created_at := now }] := hvotes
      have hmatch : votePred pid ip { post_id := pid, ip := ip, created_at := now } = true := by
        simp [votePred]
      have hfind : s.votes.find? (votePred pid ip)
          = some { post_id := pid, ip := ip, created_at := now } := by
        rw [hvs, List.find?_append, hbase]
        simp [List.find?_cons, hmatch]
      obtain ⟨hst, hsnd⟩ := vote_step_remove s pid ip now q _ hv hfind hfq
      have hrm : removeFirst (votePred pid ip) s.votes = base := by
        rw [hvs, removeFirst_append_of_none _ hbase,
          removeFirst_cons_of_pos _ hmatch, List.append_nil]
      have hv2 : ({ s with
            votes := removeFirst (votePred pid ip) s.votes
            posts := updateFirstPost pid (voteDec now) s.posts } : Store).votes
          = cond false (base ++ [{ post_id := pid, ip := ip, created_at := now }]) base := by
        show removeFirst (votePred pid ip) s.votes = base
        exact hrm
      have hq2 : ∃ r : Post, findPost ({ s with
            votes := removeFirst (votePred pid ip) s.votes
            posts := updateFirstPost pid (voteDec now) s.posts } : Store) pid = some r
          ∧ r.votes_count = p0.votes_count + cond false 1 0 := by
        refine ⟨voteDec now q, ?_, ?_⟩
        · show (updateFirstPost pid (voteDec now) s.posts).find? (fun r => r.id == pid) = _
          rw [find?_updateFirstPost pid (voteDec now) s.posts (fun r => rfl)]
          rw [show s.posts.find? (fun r => r.id == pid) = some q from hfq]
          rfl
        · show q.votes_count - 1 = p0.votes_count + 0
          simp at hcount
          omega
      obtain ⟨hres, hvfin, hqfin⟩ := ih false _ hv2 hq2
      have hpar : (false ^^ (n % 2 == 1)) = (true ^^ ((n + 1) % 2 == 1)) := by
        rw [succ_mod_two_beq]
        cases (n % 2 == 1) <;> rfl
      refine ⟨?_, ?_, ?_⟩
      · rw [toggleResults, hsnd, hst, hres, statusPat_range_succ]
        rfl
      · rw [toggleN, hsnd, hvfin, hpar]
      · rw [toggleN, hsnd, ← hpar]
        exact hqfin

/-! Claim theorems. -/

/-- C1: for every post P present in the store and every identity I,
starting with no vote ledger entry for (P, I), a run of N consecutive
toggle calls by I on P returns "voted" on the odd-numbered calls and
"unvoted" on the even-numbered ones, leaves a ledger entry for (P, I)
exactly when N is odd, and moves the stored votes_count of P by 1 when N
is odd and by 0 when N is even. -/
theorem C1_vote_toggle_parity (s : Store) (pid ip : String) (now : Int) (p : Post) (N : Nat)
    (hv : isValidObjectId pid = true)
    (hp : findPost s pid = some p)
    (h0 : s.votes.find? (votePred pid ip) = none) :
    toggleResults pid ip now N s
      = (List.range N).map (fun k => if k % 2 = 0 then "voted" else "unvoted")
    ∧ (hasVote (toggleN pid ip now N s) pid ip = true ↔ N % 2 = 1)
    ∧ (findPost (toggleN pid ip now N s) pid).map Post.votes_count
      = some (p.votes_count + (if N % 2 = 1 then 1 else 0)) := by
  obtain ⟨hres, hvotes, q, hfq, hc⟩ :=
    vote_toggle_run pid ip now s.votes p hv h0 N false s rfl ⟨p, hp, by simp⟩
  refine ⟨?_, ?_, ?_⟩
  · rw [hres]
    apply List.map_congr_left
    intro k _
    unfold statusPat
    rcases Nat.mod_two_eq_zero_or_one k with h | h <;> simp [h]
  · show (toggleN pid ip now N s).votes.any (votePred pid ip) = true ↔ N % 2 = 1
    rw [hvotes]
    rcases Nat.mod_two_eq_zero_or_one N with hN | hN
    · have hnone : s.votes.any (votePred pid ip) = false :=
        List.any_eq_false.mpr (List.find?_eq_none.mp h0)
      simp [hN, hnone]
    · simp [hN, votePred]
  · rw [hfq]
    rcases Nat.mod_two_eq_zero_or_one N with hN | hN <;>
      simp [hN] at hc ⊢ <;> omega

/-- C1 witness: three toggles by one identity on a store with one post. -/
theorem C1_vote_toggle_parity_witness :
    toggleResults "aaaaaaaaaaaaaaaaaaaaaaaa" "1.2.3.4" 5 3 demoStoreC1
      = (List.range 3).map (fun k => if k % 2 = 0 then "voted" else "unvoted")
    ∧ (hasVote (toggleN "aaaaaaaaaaaaaaaaaaaaaaaa" "1.2.3.4" 5 3 demoStoreC1)
        "aaaaaaaaaaaaaaaaaaaaaaaa" "1.2.3.4" = true ↔ 3 % 2 = 1)
    ∧ (findPost (toggleN "aaaaaaaaaaaaaaaaaaaaaaaa" "1.2.3.4" 5 3 demoStoreC1)
        "aaaaaaaaaaaaaaaaaaaaaaaa").map Post.votes_count
      = some (demoPost.votes_count + (if 3 % 2 = 1 then 1 else 0)) :=
  C1_vote_toggle_parity demoStoreC1 "aaaaaaaaaaaaaaaaaaaaaaaa" "1.2.3.4" 5 demoPost 3
    (by decide) rfl rfl

/-- C2 (code bug evidence): toggling a vote on a structurally valid post
id that references no post does not fail with NotFound; the handler
inserts a dangling vote ledger entry, the counter update matches no
document, the re-read returns no document, and the response construction
crashes with a TypeError (HTTP 500, modelled by `Err.typeError`). -/
theorem C2_vote_missing_post_crash :
    vote_post { posts := [], votes := [], comments := [] } true
        "0123456789abcdef01234567" "1.2.3.4" 0
      = (.error .typeError,
         { posts := []
           votes := [{ post_id := "0123456789abcdef01234567", ip := "1.2.3.4", created_at := 0 }]
           comments := [] }) := by
  rfl

/-- C7: a toggle by identity I on post P preserves, as an exact
subsequence, every vote ledger entry whose (post, identity) pair differs
from (P, I): none is removed or modified and none is created. -/
theorem C7_vote_frame (s : Store) (b : Bool) (pid ip : String) (now : Int) :
    ((vote_post s b pid ip now).2.votes.filter fun v => !(votePred pid ip v))
      = s.votes.filter fun v => !(votePred pid ip v) := by
  cases b with
  | false => rfl
  | true =>
    cases hfind : s.votes.find? (votePred pid ip) with
    | none =>
      cases hvp : isValidObjectId pid with
      | false =>
        simp only [vote_post, hfind, to_object_id, hvp]
        simp [List.filter_append, votePred]
      | true =>
        simp only [vote_post, hfind, to_object_id, hvp]
        simp [voteFinish_snd, List.filter_append, votePred]
    | some w =>
      cases hvp : isValidObjectId pid with
      | false =>
        simp only [vote_post, hfind, to_object_id, hvp]
        simp [filter_not_removeFirst]
      | true =>
        simp only [vote_post, hfind, to_object_id, hvp]
        simp [voteFinish_snd, filter_not_removeFirst]

/-- C9 counterexample: a structurally invalid post id makes `get_post`
fail with the 400 "Invalid id" error, not with NotFound (404). -/
theorem C9_invalid_id_counterexample :
    get_post { posts := [], votes := [], comments := [] } true "not-an-id" "1.2.3.4" 0
        ≠ .error .notFound
    ∧ get_post { posts := [], votes := [], comments := [] } true "not-an-id" "1.2.3.4" 0
        = .error .invalidId := by
  refine ⟨?_, rfl⟩
  intro h
  rw [show get_post { posts := [], votes := [], comments := [] } true "not-an-id" "1.2.3.4" 0
        = .error .invalidId from rfl] at h
  simp at h

/-- C9 amended: whenever one of the operations reaches an id parse of a
structurally invalid id, it fails with InvalidId (HTTP 400 "Invalid
id"), not with NotFound.  Concretely: get-post and vote on an
unparseable post id fail with InvalidId; add-comment with a given,
non-empty, unparseable parent id fails with InvalidId regardless of the
post id; add-comment with an unparseable post id fails with InvalidId
when the parent check is skipped (parent absent or the empty string) --
but when a parseable non-empty parent id fails the parent check, the
operation fails with InvalidParent instead, because that check runs
before the post id is ever parsed. -/
theorem C9_invalid_id_rejected (s : Store) (pid pid2 ip par par2 : String) (now : Int)
    (author : Option String) (content : String) (newId : String)
    (hpid : isValidObjectId pid = false)
    (hvpar : isValidObjectId par = false) (hpar : par ≠ "")
    (hvpar2 : isValidObjectId par2 = true) (hpar2 : par2 ≠ "")
    (hmiss : ∀ c ∈ s.comments, c.id = par2 → c.post_id ≠ pid) :
    get_post s true pid ip now = .error .invalidId
    ∧ (vote_post s true pid ip now).1 = .error .invalidId
    ∧ (add_comment s true pid author content none now newId).1 = .error .invalidId
    ∧ (add_comment s true pid author content (some "") now newId).1 = .error .invalidId
    ∧ (add_comment s true pid2 author content (some par) now newId).1 = .error .invalidId
    ∧ (add_comment s true pid author content (some par2) now newId).1
      = .error .invalidParent := by
  have hbeq : (par == "") = false := by
    simp [hpar]
  have hbeq2 : (par2 == "") = false := by
    simp [hpar2]
  refine ⟨?_, ?_, ?_, ?_, ?_, ?_⟩
  · simp [get_post, to_object_id, hpid]
  · cases hfind : s.votes.find? (votePred pid ip) with
    | none => simp [vote_post, hfind, to_object_id, hpid]
    | some w => simp [vote_post, hfind, to_object_id, hpid]
  · simp [add_comment, addCommentInsert, to_object_id, hpid]
  · simp [add_comment, addCommentInsert, to_object_id, hpid]
  · simp [add_comment, hbeq, to_object_id, hvpar]
  · cases hfind : s.comments.find? (fun c => c.id == par2) with
    | none => simp [add_comment, hbeq2, to_object_id, hvpar2, hfind]
    | some c =>
      have hcid : c.id = par2 := by
        have := List.find?_some hfind
        simpa using this
      have hcbeq : (c.post_id == pid) = false := by
        simp [hmiss c (List.mem_of_find?_eq_some hfind) hcid]
      simp [add_comment, hbeq2, to_object_id, hvpar2, hfind, hcbeq]

/-- C9 witness for the amended statement: concrete invalid ids, with a
valid post id paired with the unparseable parent id, and the
InvalidParent corner exercised against the wrong-post comment. -/
theorem C9_invalid_id_rejected_witness :
    get_post demoStoreC3 true "nope" "1.2.3.4" 0 = .error .invalidId
    ∧ (vote_post demoStoreC3 true "nope" "1.2.3.4" 0).1 = .error .invalidId
    ∧ (add_comment demoStoreC3 true "nope" none "hi" none 0
        "bbbbbbbbbbbbbbbbbbbbbbbb").1 = .error .invalidId
    ∧ (add_comment demoStoreC3 true "nope" none "hi" (some "") 0
        "bbbbbbbbbbbbbbbbbbbbbbbb").1 = .error .invalidId
    ∧ (add_comment demoStoreC3 true "aaaaaaaaaaaaaaaaaaaaaaaa" none "hi" (some "bad") 0
        "bbbbbbbbbbbbbbbbbbbbbbbb").1 = .error .invalidId
    ∧ (add_comment demoStoreC3 true "nope" none "hi" (some "dddddddddddddddddddddddd") 0
        "bbbbbbbbbbbbbbbbbbbbbbbb").1 = .error .invalidParent :=
  C9_invalid_id_rejected demoStoreC3 "nope" "aaaaaaaaaaaaaaaaaaaaaaaa" "1.2.3.4" "bad"
    "dddddddddddddddddddddddd" 0 none "hi" "bbbbbbbbbbbbbbbbbbbbbbbb"
    (by decide) (by decide) (by decide) (by decide) (by decide) (by decide)

/-- C3 counterexample: a comment-creation request whose parent_id is
given as the empty string references no existing comment, yet the
handler treats the falsy value as absent, succeeds, and creates the
comment instead of failing with InvalidParent. -/
theorem C3_empty_parent_counterexample :
    (add_comment demoStoreC1 true "aaaaaaaaaaaaaaaaaaaaaaaa" none "hi" (some "") 0
        "bbbbbbbbbbbbbbbbbbbbbbbb").1 = .ok ()
    ∧ (add_comment demoStoreC1 true "aaaaaaaaaaaaaaaaaaaaaaaa" none "hi" (some "") 0
        "bbbbbbbbbbbbbbbbbbbbbbbb").2.comments.length = demoStoreC1.comments.length + 1 :=
  ⟨rfl, rfl⟩

/-- C3 amended: for a given, non-empty, structurally parseable parent id
that either references no existing comment or only comments of a
different post, add-comment fails with InvalidParent and the store is
unchanged; an empty-string parent id is treated as absent (the comment
is created), and an unparseable parent id fails with InvalidId instead. -/
theorem C3_invalid_parent_rejected (s : Store) (pid : String) (author : Option String)
    (content : String) (par : String) (now : Int) (newId : String)
    (hne : par ≠ "") (hvp : isValidObjectId par = true)
    (h : ∀ c ∈ s.comments, c.id = par → c.post_id ≠ pid) :
    add_comment s true pid author content (some par) now newId = (.error .invalidParent, s) := by
  have hbeq : (par == "") = false := by simp [hne]
  cases hfind : s.comments.find? (fun c => c.id == par) with
  | none => simp [add_comment, hbeq, to_object_id, hvp, hfind]
  | some c =>
    have hcid : c.id = par := by
      have := List.find?_some hfind
      simpa using this
    have hcpost : c.post_id ≠ pid := h c (List.mem_of_find?_eq_some hfind) hcid
    have hcbeq : (c.post_id == pid) = false := by simp [hcpost]
    simp [add_comment, hbeq, to_object_id, hvp, hfind, hcbeq]

/-- C3 witness for the amended statement: a parent comment from another
post is rejected with InvalidParent and the store is unchanged. -/
theorem C3_invalid_parent_rejected_witness :
    add_comment demoStoreC3 true "aaaaaaaaaaaaaaaaaaaaaaaa" none "hi"
        (some "dddddddddddddddddddddddd") 0 "bbbbbbbbbbbbbbbbbbbbbbbb"
      = (.error .invalidParent, demoStoreC3) :=
  C3_invalid_parent_rejected demoStoreC3 "aaaaaaaaaaaaaaaaaaaaaaaa" none "hi"
    "dddddddddddddddddddddddd" 0 "bbbbbbbbbbbbbbbbbbbbbbbb"
    (by decide) (by decide) (by decide)

/-- C10: with the store handle absent, the feed list succeeds and serves
the two hardcoded sample posts with total 2, page 1 and page_size 2,
ignoring every requested parameter, while the write operations fail with
service-unavailable and leave the store untouched. -/
theorem C10_db_absent_fallback (s : Store) (tr : TimeRange) (sb : SortBy)
    (page psz : Nat) (now : Int) (ip pid title description content : String)
    (url : Option String) (author : Option String) (parId : Option String) (newId : String) :
    list_posts s false tr sb page psz now ip
      = { items := samplePosts now, total := 2, page := 1, page_size := 2 }
    ∧ create_post s false title description url now newId = (.error .serviceUnavailable, s)
    ∧ vote_post s false pid ip now = (.error .serviceUnavailable, s)
    ∧ add_comment s false pid author content parId now newId
      = (.error .serviceUnavailable, s) :=
  ⟨rfl, rfl, rfl, rfl⟩

/-- C4: with the store present, page and page_size within the accepted
bounds (1-indexed page, page_size in [1,50], default 20 at the HTTP
boundary), the feed page is the slice at offset (page-1)*page_size of
the sorted filtered posts, at most page_size items long, and total is
the count matching the time-range filter regardless of pagination; in
particular with 25 matching posts and page_size 20, page 1 holds 20
items with total 25 and page 2 holds 5 items. -/
theorem C4_feed_pagination (s : Store) (tr : TimeRange) (sb : SortBy) (now : Int)
    (ip : String) (page psz : Nat) (h1 : 1 ≤ page) (h2 : 1 ≤ psz) (h3 : psz ≤ 50) :
    (list_posts s true tr sb page psz now ip).items
      = (((sortDescBy (sortKey sb) (s.posts.filter (matchesRange tr now))).drop
          ((page - 1) * psz)).take psz).map (toItem s ip)
    ∧ (list_posts s true tr sb page psz now ip).total
      = (s.posts.filter (matchesRange tr now)).length
    ∧ (list_posts s true tr sb page psz now ip).page = page
    ∧ (list_posts s true tr sb page psz now ip).page_size = psz
    ∧ (list_posts s true tr sb page psz now ip).items.length
      = min psz ((s.posts.filter (matchesRange tr now)).length - (page - 1) * psz)
    ∧ ((s.posts.filter (matchesRange tr now)).length = 25 → psz = 20 →
        ((page = 1 → (list_posts s true tr sb page psz now ip).items.length = 20
            ∧ (list_posts s true tr sb page psz now ip).total = 25)
         ∧ (page = 2 → (list_posts s true tr sb page psz now ip).items.length = 5))) := by
  have hlen : (list_posts s true tr sb page psz now ip).items.length
      = min psz ((s.posts.filter (matchesRange tr now)).length - (page - 1) * psz) := by
    rw [show (list_posts s true tr sb page psz now ip).items
          = (((sortDescBy (sortKey sb) (s.posts.filter (matchesRange tr now))).drop
              ((page - 1) * psz)).take psz).map (toItem s ip) from rfl]
    rw [List.length_map, List.length_take, List.length_drop, length_sortDescBy]
  refine ⟨rfl, rfl, rfl, rfl, hlen, ?_⟩
  intro h25 h20
  constructor
  · intro hp1
    constructor
    · rw [hlen, h25, h20, hp1]
      decide
    · exact h25
  · intro hp2
    rw [hlen, h25, h20, hp2]
    decide

/-- C4 witness: 25 posts, page size 20: page 1 has 20 items and total
25, page 2 has 5 items. -/
theorem C4_feed_pagination_witness :
    (list_posts storeC4 true .all .votes 1 20 0 "u").items.length = 20
    ∧ (list_posts storeC4 true .all .votes 1 20 0 "u").total = 25
    ∧ (list_posts storeC4 true .all .votes 2 20 0 "u").items.length = 5 := by
  have h25 : (storeC4.posts.filter (matchesRange .all 0)).length = 25 := by
    rw [List.filter_eq_self.mpr]
    · simp [storeC4]
    · intro a _
      rfl
  obtain ⟨-, -, -, -, -, h1i⟩ :=
    C4_feed_pagination storeC4 .all .votes 0 "u" 1 20 (by omega) (by omega) (by omega)
  obtain ⟨-, -, -, -, -, h2i⟩ :=
    C4_feed_pagination storeC4 .all .votes 0 "u" 2 20 (by omega) (by omega) (by omega)
  obtain ⟨h1a, -⟩ := h1i h25 rfl
  obtain ⟨-, h2b⟩ := h2i h25 rfl
  obtain ⟨hlen20, htot⟩ := h1a rfl
  exact ⟨hlen20, htot, h2b rfl⟩

/-- C5: the time-range filter of the feed selects exactly the posts with
created_at at least now minus 7 days (week), at least now minus 30 days
(month), or all posts (all); a post created 10 days before the request
is excluded from the week feed and included in the month and all
feeds. -/
theorem C5_time_range_filter (s : Store) (now : Int) (p : Post) :
    (p ∈ s.posts.filter (matchesRange .week now)
      ↔ p ∈ s.posts ∧ now - 7 * 86400 ≤ p.created_at)
    ∧ (p ∈ s.posts.filter (matchesRange .month now)
      ↔ p ∈ s.posts ∧ now - 30 * 86400 ≤ p.created_at)
    ∧ (p ∈ s.posts.filter (matchesRange .all now) ↔ p ∈ s.posts)
    ∧ (p.created_at = now - 10 * 86400 →
        p ∉ s.posts.filter (matchesRange .week now)
        ∧ (p ∈ s.posts → p ∈ s.posts.filter (matchesRange .month now))
        ∧ (p ∈ s.posts → p ∈ s.posts.filter (matchesRange .all now))) := by
  refine ⟨?_, ?_, ?_, ?_⟩
  · simp [List.mem_filter, matchesRange]
  · simp [List.mem_filter, matchesRange]
  · simp [List.mem_filter, matchesRange]
  · intro h10
    refine ⟨?_, fun hm => ?_, fun hm => ?_⟩
    · simp only [List.mem_filter, matchesRange, decide_eq_true_eq, h10]
      intro hcontra
      omega
    · simp only [List.mem_filter, matchesRange, decide_eq_true_eq, h10]
      exact ⟨hm, by omega⟩
    · simp [List.mem_filter, matchesRange, hm]

/-- C5 witness: a ten-day-old post is out of the week filter and in the
month and all filters. -/
theorem C5_time_range_filter_witness :
    tenDayPost ∉ storeC5.posts.filter (matchesRange .week 0)
    ∧ tenDayPost ∈ storeC5.posts.filter (matchesRange .month 0)
    ∧ tenDayPost ∈ storeC5.posts.filter (matchesRange .all 0) := by
  obtain ⟨-, -, -, h10⟩ := C5_time_range_filter storeC5 0 tenDayPost
  have hmem : tenDayPost ∈ storeC5.posts := by simp [storeC5]
  obtain ⟨ha, hb, hc⟩ := h10 (by decide)
  exact ⟨ha, hb hmem, hc hmem⟩

/-- C6: sorting by comments orders the page by the stored (possibly
stale) comments_count field, while every returned item carries the live
count of comment documents with its post id; on `storeC6` the sort
order ["a", "b"] (stored counts 5, 0) disagrees with the displayed live
counts [0, 1]. -/
theorem C6_comments_sort_stored_display_live (s : Store) (tr : TimeRange)
    (page psz : Nat) (now : Int) (ip : String) :
    (list_posts s true tr .comments page psz now ip).items
      = (((sortDescBy (sortKey .comments) (s.posts.filter (matchesRange tr now))).drop
          ((page - 1) * psz)).take psz).map (toItem s ip)
    ∧ ((list_posts s true tr .comments page psz now ip).items.all
        fun it => it.comments_count == liveCommentCount s it.id) = true
    ∧ (list_posts storeC6 true .all .comments 1 20 0 "u").items.map (fun it => it.id)
      = ["a", "b"]
    ∧ (list_posts storeC6 true .all .comments 1 20 0 "u").items.map
        (fun it => it.comments_count) = [0, 1]
    ∧ storeC6.posts.map (fun p => p.comments_count) = [5, 0] :=
  ⟨rfl, feed_items_live_counts s tr .comments page psz now ip, rfl, rfl, rfl⟩

/-- A successful `get_post` always reports the live comment count. -/
lemma get_post_live (s : Store) (pid ip : String) (now : Int) :
    okLiveCount (get_post s true pid ip now) s pid = true := by
  cases hto : to_object_id pid with
  | error e => simp [get_post, okLiveCount, hto]
  | ok o =>
    cases hfp : findPost s pid with
    | none => simp [get_post, okLiveCount, hto, hfp]
    | some p =>
      have hpid : p.id = pid := by
        have := List.find?_some hfp
        simpa using this
      simp [get_post, okLiveCount, hto, hfp, toItem, hpid]

/-- The store after a successful add-comment: the comment is appended
and the post document gets only its updated_at refreshed. -/
lemma add_comment_ok_state (s : Store) (pid : String) (author : Option String)
    (content : String) (parId : Option String) (now : Int) (newId : String)
    (hok : (add_comment s true pid author content parId now newId).1 = .ok ()) :
    (add_comment s true pid author content parId now newId).2
      = { s with
          comments := s.comments ++ [newComment pid author content parId now newId]
          posts := updateFirstPost pid (fun q => { q with updated_at := now }) s.posts } := by
  cases hvp : isValidObjectId pid with
  | false =>
    exfalso
    cases parId with
    | none =>
      simp [add_comment, addCommentInsert, to_object_id, hvp] at hok
    | some par =>
      cases hpe : (par == "") with
      | true => simp [add_comment, hpe, addCommentInsert, to_object_id, hvp] at hok
      | false =>
        cases hvp2 : isValidObjectId par with
        | false => simp [add_comment, hpe, to_object_id, hvp2] at hok
        | true =>
          cases hfind : s.comments.find? (fun c => c.id == par) with
          | none => simp [add_comment, hpe, to_object_id, hvp2, hfind] at hok
          | some c =>
            cases hcp : (c.post_id == pid) with
            | false => simp [add_comment, hpe, to_object_id, hvp2, hfind, hcp] at hok
            | true =>
              simp [add_comment, hpe, to_object_id, hvp2, hfind, hcp,
                addCommentInsert, hvp] at hok
  | true =>
    cases parId with
    | none => simp [add_comment, addCommentInsert, to_object_id, hvp]
    | some par =>
      cases hpe : (par == "") with
      | true =>
        have hpar : par = "" := by simpa using hpe
        simp [add_comment, hpe, addCommentInsert, to_object_id, hvp, hpar]
      | false =>
        cases hvp2 : isValidObjectId par with
        | false => simp [add_comment, hpe, to_object_id, hvp2] at hok
        | true =>
          cases hfind : s.comments.find? (fun c => c.id == par) with
          | none => simp [add_comment, hpe, to_object_id, hvp2, hfind] at hok
          | some c =>
            cases hcp : (c.post_id == pid) with
            | false => simp [add_comment, hpe, to_object_id, hvp2, hfind, hcp] at hok
            | true =>
              simp [add_comment, hpe, to_object_id, hvp2, hfind, hcp,
                addCommentInsert, hvp]

/-- C8: a successful add-comment appends the comment document and leaves
every stored post field except updated_at unchanged (in particular the
stored comments_count is untouched); the comment counts reported by
single-post reads and feed listings are live counts of comment
documents with matching post id. -/
theorem C8_comment_count_not_stored (s : Store) (pid : String) (author : Option String)
    (content : String) (parId : Option String) (now : Int) (newId : String) (ip : String)
    (tr : TimeRange) (sb : SortBy) (page psz : Nat)
    (hok : (add_comment s true pid author content parId now newId).1 = .ok ()) :
    ((add_comment s true pid author content parId now newId).2.posts.map
        (fun q => (q.id, q.title, q.description, q.url, q.votes_count, q.comments_count,
          q.created_at))
      = s.posts.map (fun q => (q.id, q.title, q.description, q.url, q.votes_count,
          q.comments_count, q.created_at)))
    ∧ ((add_comment s true pid author content parId now newId).2.comments
      = s.comments ++ [newComment pid author content parId now newId])
    ∧ (findPost (add_comment s true pid author content parId now newId).2 pid
      = (findPost s pid).map (fun q => { q with updated_at := now }))
    ∧ okLiveCount
        (get_post (add_comment s true pid author content parId now newId).2 true pid ip now)
        (add_comment s true pid author content parId now newId).2 pid = true
    ∧ (((list_posts (add_comment s true pid author content parId now newId).2 true tr sb
          page psz now ip).items.all
        fun it => it.comments_count
          == liveCommentCount (add_comment s true pid author content parId now newId).2 it.id)
      = true) := by
  rw [add_comment_ok_state s pid author content parId now newId hok]
  refine ⟨?_, rfl, ?_, get_post_live _ pid ip now, feed_items_live_counts _ tr sb page psz now ip⟩
  · exact map_updateFirstPost pid _ _ s.posts (fun q => rfl)
  · exact find?_updateFirstPost pid _ s.posts (fun q => rfl)

/-- C8 witness: one concrete successful add-comment. -/
theorem C8_comment_count_not_stored_witness :
    ((add_comment demoStoreC1 true "aaaaaaaaaaaaaaaaaaaaaaaa" none "hi" none 0
        "bbbbbbbbbbbbbbbbbbbbbbbb").2.posts.map
        (fun q => (q.id, q.title, q.description, q.url, q.votes_count, q.comments_count,
          q.created_at))
      = demoStoreC1.posts.map (fun q => (q.id, q.title, q.description, q.url, q.votes_count,
          q.comments_count, q.created_at)))
    ∧ ((add_comment demoStoreC1 true "aaaaaaaaaaaaaaaaaaaaaaaa" none "hi" none 0
        "bbbbbbbbbbbbbbbbbbbbbbbb").2.comments
      = demoStoreC1.comments ++
        [newComment "aaaaaaaaaaaaaaaaaaaaaaaa" none "hi" none 0 "bbbbbbbbbbbbbbbbbbbbbbbb"])
    ∧ (findPost (add_comment demoStoreC1 true "aaaaaaaaaaaaaaaaaaaaaaaa" none "hi" none 0
          "bbbbbbbbbbbbbbbbbbbbbbbb").2 "aaaaaaaaaaaaaaaaaaaaaaaa"
      = (findPost demoStoreC1 "aaaaaaaaaaaaaaaaaaaaaaaa").map
          (fun q => { q with updated_at := 0 }))
    ∧ okLiveCount
        (get_post (add_comment demoStoreC1 true "aaaaaaaaaaaaaaaaaaaaaaaa" none "hi" none 0
          "bbbbbbbbbbbbbbbbbbbbbbbb").2 true "aaaaaaaaaaaaaaaaaaaaaaaa" "1.2.3.4" 0)
        (add_comment demoStoreC1 true "aaaaaaaaaaaaaaaaaaaaaaaa" none "hi" none 0
          "bbbbbbbbbbbbbbbbbbbbbbbb").2 "aaaaaaaaaaaaaaaaaaaaaaaa" = true
    ∧ (((list_posts (add_comment demoStoreC1 true "aaaaaaaaaaaaaaaaaaaaaaaa" none "hi" none 0
          "bbbbbbbbbbbbbbbbbbbbbbbb").2 true .all .votes 1 20 0 "1.2.3.4").items.all
        fun it => it.comments_count
          == liveCommentCount (add_comment demoStoreC1 true "aaaaaaaaaaaaaaaaaaaaaaaa" none
              "hi" none 0 "bbbbbbbbbbbbbbbbbbbbbbbb").2 it.id)
      = true) :=
  C8_comment_count_not_stored demoStoreC1 "aaaaaaaaaaaaaaaaaaaaaaaa" none "hi" none 0
    "bbbbbbbbbbbbbbbbbbbbbbbb" "1.2.3.4" .all .votes 1 20 rfl

end VibeHunt
